import Mathlib

/-!
Verification development for the Soonish reminder app.

The definitions below are a shallow embedding of the reminder lifecycle and
notification-scheduling engine: the `App` component (timer loop, reminder
creation, snooze, defer-all, midnight cleanup) and the
`NotificationManager` service.  Times are epoch milliseconds modelled as
`Int`; the calendar used by defer-all is a linear clock with fixed-length
days (timezone offset and DST are outside the model).  Calls to the
platform notification API (`LocalNotifications`) are modelled both as an
explicit effect trace and by their action on the OS pending-notification
set, which the platform keys by notification `id`.
-/

namespace Soonish

/-- `Capacitor.getPlatform()`: the app runs either in a browser (`web`) or as
a native Capacitor shell (`android` / `ios`). -/
inductive Platform where
  | web
  | android
  | ios
deriving Repr, DecidableEq

/-- One user-created reminder, as stored in the `reminders` React state.
Field order follows the object literal in `handleAddReminder`. -/
structure Reminder where
  id : Int
  text : String
  originalDuration : Int
  remaining : Int
  targetTime : Int
  createdAt : Int
  notified : Bool
deriving Repr, DecidableEq

/-- Ceiling division for integers, `b > 0` intended: embeds the JavaScript
expression `Math.ceil(a / b)` for integral `a`, `b`. -/
def ceilDiv (a b : Int) : Int := -((-a).fdiv b)

/-- The countdown recomputation from the timer loop:
`Math.max(0, Math.ceil((reminder.targetTime - now) / 1000))`. -/
def remainingOf (targetTime now : Int) : Int :=
  max 0 (ceilDiv (targetTime - now) 1000)

/-- Result of one timer-loop visit to one reminder: the updated reminder and
the body text of the web notification fired by `triggerWebNotification`,
when one was fired. -/
structure TickResult where
  reminder : Reminder
  webAlert : Option String
deriving Repr, DecidableEq

/-- One reminder's update inside the `setInterval` callback of the timer
loop: recompute `remaining` from `targetTime` and the clock; on web only,
fire the notification at the zero-crossing and set `notified`. -/
def tickReminder (p : Platform) (now : Int) (r : Reminder) : TickResult :=
  if remainingOf r.targetTime now = 0 ∧ r.notified = false ∧ p = Platform.web then
    ⟨{ r with remaining := 0, notified := true }, some r.text⟩
  else
    ⟨{ r with remaining := remainingOf r.targetTime now }, none⟩

/-- One full tick of the timer loop over the reminder store: the new store
contents and the web alerts fired during the tick. -/
def tickStore (p : Platform) (now : Int) (store : List Reminder) :
    List Reminder × List String :=
  (store.map (fun r => (tickReminder p now r).reminder),
   store.filterMap (fun r => (tickReminder p now r).webAlert))

/-- One entry of the OS scheduler's pending set, as registered by
`LocalNotifications.schedule`: the notification `id`, its `title` and
`body`, and the absolute trigger instant (`schedule.at`). -/
structure PendingNotif where
  id : Int
  title : String
  body : String
  triggerAt : Int
deriving Repr, DecidableEq

/-- Platform semantics of `LocalNotifications.schedule` with one
notification: the OS keys pending notifications by `id`, so scheduling an
`id` that is already pending replaces the existing entry. -/
def osSchedule (pending : List PendingNotif) (n : PendingNotif) : List PendingNotif :=
  n :: pending.filter (fun m => m.id != n.id)

/-- Platform semantics of `LocalNotifications.cancel` for one `id`. -/
def osCancel (pending : List PendingNotif) (id : Int) : List PendingNotif :=
  pending.filter (fun m => m.id != id)

/-- Platform calls issued by `NotificationManager`, recorded as a trace. -/
inductive MgrEffect where
  | requestPermissions
  | osSchedule (n : PendingNotif)
  | osCancel (id : Int)
deriving Repr, DecidableEq

def MgrEffect.isCancel : MgrEffect → Bool
  | .osCancel _ => true
  | _ => false

def MgrEffect.isOsSchedule : MgrEffect → Bool
  | .osSchedule _ => true
  | _ => false

/-- The notification `id` a platform call targets, when it targets one. -/
def MgrEffect.targetId : MgrEffect → Option Int
  | .requestPermissions => none
  | .osSchedule n => some n.id
  | .osCancel id => some id

/-- `NotificationManager.schedule(title, body, seconds, id)`: on web it only
ensures permission and returns; on native it registers an OS notification
at the absolute instant `now + seconds * 1000`.  Returns the new OS pending
set together with the trace of platform calls made. -/
def managerSchedule (p : Platform) (now : Int) (pending : List PendingNotif)
    (title body : String) (seconds id : Int) :
    List PendingNotif × List MgrEffect :=
  if p = Platform.web then
    (pending, [MgrEffect.requestPermissions])
  else
    let n : PendingNotif := ⟨id, title, body, now + seconds * 1000⟩
    (osSchedule pending n, [MgrEffect.osSchedule n])

/-- `NotificationManager.cancel(id)`: a no-op on web, otherwise removes the
pending notification for `id` (a missing `id` is silently tolerated). -/
def managerCancel (p : Platform) (pending : List PendingNotif) (id : Int) :
    List PendingNotif × List MgrEffect :=
  if p = Platform.web then (pending, [])
  else (osCancel pending id, [MgrEffect.osCancel id])

/-- Number of pending OS notifications registered under `id`. -/
def countId (pending : List PendingNotif) (id : Int) : Nat :=
  pending.countP (fun m => m.id == id)

/-- Id allocation in `handleAddReminder`:
`Math.floor(now % 2147483647)` — for the integral, non-negative values
produced by `Date.now()` this is the remainder of `now` modulo
`2147483647`, and `Math.floor` is the identity on it. -/
def allocId (now : Int) : Int := now % 2147483647

/-- Milliseconds per calendar day of the model's linear local calendar. -/
def DAYMS : Int := 86400000

/-- The target instant computed by `handleDeferAll`:
`tomorrow = new Date(now); tomorrow.setDate(getDate() + 1);
tomorrow.setHours(hours, minutes, 0, 0)` — i.e. tomorrow's calendar day at
`h:m:00.000`, unconditionally. -/
def deferTargetTime (now h m : Int) : Int :=
  (now / DAYMS + 1) * DAYMS + h * 3600000 + m * 60000

/-- Modelled from the spec's words, for comparison with `deferTargetTime`:
"the next occurrence of `untilHour:untilMinute` strictly in the future (if
today's occurrence has already passed, use tomorrow's date)". -/
def specNextOccurrence (now h m : Int) : Int :=
  let today := (now / DAYMS) * DAYMS + h * 3600000 + m * 60000
  if now < today then today else today + DAYMS

/-- The per-reminder update applied by `handleDeferAll`'s `setReminders`
call to reminders with `remaining > 0`. -/
def deferUpdate (tomorrow secondsUntilTomorrow : Int) (r : Reminder) : Reminder :=
  if 0 < r.remaining then
    { r with targetTime := tomorrow, remaining := secondsUntilTomorrow,
             notified := false, originalDuration := secondsUntilTomorrow }
  else r

/-- Result of `handleDeferAll`: the new store, the trace of
`NotificationManager` calls, and whether the "no active reminders" alert
was shown instead of deferring. -/
structure DeferResult where
  store : List Reminder
  effects : List MgrEffect
  nothingToDefer : Bool
deriving Repr, DecidableEq

/-- `handleDeferAll`: selects reminders with `remaining > 0`; if none,
alerts and stops; otherwise (once the user confirms) cancels and
reschedules each selected reminder's alarm for tomorrow at the configured
`h:m` and rewrites each selected reminder in place.  `confirmed` models the
`window.confirm` answer; a declined dialog mutates nothing. -/
def handleDeferAll (p : Platform) (now h m : Int) (confirmed : Bool)
    (store : List Reminder) : DeferResult :=
  if (store.filter (fun r => decide (0 < r.remaining))).isEmpty then
    ⟨store, [], true⟩
  else if confirmed = false then ⟨store, [], false⟩
  else
    ⟨store.map (deferUpdate (deferTargetTime now h m)
        (ceilDiv (deferTargetTime now h m - now) 1000)),
     (store.filter (fun r => decide (0 < r.remaining))).flatMap (fun r =>
       (managerCancel p [] r.id).2
         ++ (managerSchedule p now [] "Deferred Reminder" r.text
               (ceilDiv (deferTargetTime now h m - now) 1000) r.id).2),
     false⟩

/-- The midnight sweep: `setReminders(prev => prev.filter(r => r.remaining > 0))`. -/
def cleanupExpired (store : List Reminder) : List Reminder :=
  store.filter (fun r => decide (0 < r.remaining))

/-- The per-reminder update inside `handleSnooze`'s `setReminders` call:
the matching reminder gets a fresh target `now + minutes*60*1000`, its
countdown reset to `minutes*60` seconds, and `notified` cleared; everything
else passes through. -/
def snoozeUpdate (now minutes id : Int) (r : Reminder) : Reminder :=
  if r.id = id then
    { r with targetTime := now + minutes * 60 * 1000,
             remaining := minutes * 60, notified := false }
  else r

/-- `handleSnooze(id, minutes)`: cancels the pending alarm for `id`, then
rewrites the matching reminder and re-schedules its alarm `minutes*60`
seconds out.  Returns the new store and the platform-call trace. -/
def handleSnooze (p : Platform) (now id minutes : Int) (store : List Reminder) :
    List Reminder × List MgrEffect :=
  (store.map (snoozeUpdate now minutes id),
   (managerCancel p [] id).2
     ++ (store.filter (fun r => r.id == id)).flatMap (fun r =>
          (managerSchedule p now [] "Soonish Reminder" r.text
            (minutes * 60) id).2))

/-- Notification permission as reported by the platform
(`granted` / `denied` / `prompt`). -/
inductive Permission where
  | granted
  | denied
  | prompt
deriving Repr, DecidableEq

/-- ASCII approximation of the whitespace class used by JavaScript's
`String.prototype.trim` and the regex class `\s`. -/
def isJsWhitespace (c : Char) : Bool :=
  (c == ' ') || (c == '\t') || (c == '\n') || (c == '\r')

/-- JavaScript line terminators, which the regex `.` does not match. -/
def isLineTerminator (c : Char) : Bool :=
  (c == '\n') || (c == '\r')

/-- The `!inputValue.trim()` guard: the input is rejected exactly when every
character is whitespace (its trim is empty). -/
def isBlank (s : String) : Bool := s.data.all isJsWhitespace

/-- `parseInt(digits, 10)` on a non-empty run of decimal digits. -/
def digitsVal (ds : List Char) : Nat :=
  ds.foldl (fun n c => 10 * n + (c.toNat - 48)) 0

/-- Embeds `text.match(/^\[(\d+)\]\s*(.*)/)`: on success returns the value
of the digit capture and the text captured by `(.*)` (the characters after
the bracket prefix and any whitespace, up to the first line terminator). -/
def customTimeMatch (s : String) : Option (Nat × String) :=
  match s.data with
  | '[' :: rest =>
    match rest.takeWhile Char.isDigit, rest.dropWhile Char.isDigit with
    | [], _ => none
    | ds, ']' :: rest3 =>
        some (digitsVal ds,
          String.mk ((rest3.dropWhile isJsWhitespace).takeWhile
            (fun c => !(isLineTerminator c))))
    | _, _ => none
  | _ => none

/-- The duration/text selection of `handleAddReminder`: a `[N]` prefix with
`N > 0` overrides the selected duration with `N` minutes and replaces the
text by the captured remainder, defaulting to `"Reminder"` when that
remainder is empty; otherwise the selected duration and the raw input are
used. -/
def mkDurationText (selectedDuration : Int) (input : String) : Int × String :=
  match customTimeMatch input with
  | some (n, rest) =>
      if 0 < n then ((n : Int) * 60, if rest = "" then "Reminder" else rest)
      else (selectedDuration * 60, input)
  | none => (selectedDuration * 60, input)

/-- The reminder object built by `handleAddReminder` at clock reading
`now`. -/
def mkNewReminder (now selectedDuration : Int) (input : String) : Reminder :=
  { id := allocId now
    text := (mkDurationText selectedDuration input).2
    originalDuration := (mkDurationText selectedDuration input).1
    remaining := (mkDurationText selectedDuration input).1
    targetTime := now + (mkDurationText selectedDuration input).1 * 1000
    createdAt := now
    notified := false }

/-- Outcome of `handleAddReminder`: the store, the input box contents, the
permission-error banner, the `alert(...)` raised by the catch block, and
the platform-call trace. -/
structure AddResult where
  store : List Reminder
  inputValue : String
  permissionError : Option String
  errorAlert : Option String
  effects : List MgrEffect
deriving Repr, DecidableEq

/-- `handleAddReminder`: rejects blank input; surfaces a permission error
and mutates nothing when permission is not granted; otherwise inserts the
new reminder at the head of the store, clears the input box, and schedules
the alarm.  `scheduleFails` models `notificationManager.schedule` throwing:
the catch block only raises an alert — the store insert, already
dispatched, stands. -/
def handleAddReminder (p : Platform) (perm : Permission) (scheduleFails : Bool)
    (now selectedDuration : Int) (input : String) (store : List Reminder) :
    AddResult :=
  if isBlank input then ⟨store, input, none, none, []⟩
  else
    match perm with
    | .denied =>
        ⟨store, input,
         some "Notifications are blocked. Please enable them in your device settings.",
         none, []⟩
    | .prompt =>
        ⟨store, input,
         some "Notification permission is required to set reminders.",
         none, []⟩
    | .granted =>
        if scheduleFails then
          ⟨mkNewReminder now selectedDuration input :: store, "", none,
           some "Failed to add reminder", []⟩
        else
          ⟨mkNewReminder now selectedDuration input :: store, "", none, none,
           (managerSchedule p now [] "Soonish Reminder"
             (mkNewReminder now selectedDuration input).text
             (mkNewReminder now selectedDuration input).originalDuration
             (mkNewReminder now selectedDuration input).id).2⟩

theorem tickReminder_remaining (p : Platform) (now : Int) (r : Reminder) :
    ((tickReminder p now r).reminder).remaining = remainingOf r.targetTime now := by
  unfold tickReminder
  split
  · next h => simp [h.1]
  · rfl

theorem tickReminder_ignores_remaining (p : Platform) (now : Int) (r : Reminder)
    (x : Int) :
    tickReminder p now { r with remaining := x } = tickReminder p now r := rfl

/-- C1: at every tick, each stored reminder's displayed `remaining` equals
`max 0 (ceil ((targetTime - now) / 1000))`, recomputed from the absolute
`targetTime` and the current clock reading alone; the incoming `remaining`
value is never consulted (no decrementing counter), so arbitrarily large
clock jumps between ticks cannot cause drift. -/
theorem c1_remaining_recomputed_from_target (p : Platform) (now : Int)
    (store : List Reminder) (r : Reminder) (x : Int) :
    (tickStore p now store).1.map Reminder.remaining
        = store.map (fun s => remainingOf s.targetTime now)
      ∧ ((tickReminder p now r).reminder).remaining = remainingOf r.targetTime now
      ∧ tickReminder p now { r with remaining := x } = tickReminder p now r := by
  refine ⟨?_, tickReminder_remaining p now r, rfl⟩
  induction store with
  | nil => rfl
  | cons hd tl ih =>
      simp only [tickStore, List.map_cons, List.map_map] at ih ⊢
      rw [tickReminder_remaining, ih]

theorem countId_osCancel (pending : List PendingNotif) (id : Int) :
    countId (osCancel pending id) id = 0 := by
  induction pending with
  | nil => rfl
  | cons hd tl ih =>
      by_cases h : hd.id = id
      · simp [countId, osCancel, h, ih]
      · simp [countId, osCancel, List.countP_cons, h, ih]

theorem countId_osSchedule (pending : List PendingNotif) (n : PendingNotif) :
    countId (osSchedule pending n) n.id = 1 := by
  have h0 : countId (osCancel pending n.id) n.id = 0 := countId_osCancel pending n.id
  simp only [countId, osSchedule, osCancel, List.countP_cons] at h0 ⊢
  simp [h0]

/-- C2 counterexample: with an alarm for id `7` already pending in the OS
scheduler, `NotificationManager.schedule` on native issues no cancel call at
all — its platform-call trace contains no `LocalNotifications.cancel` — so
it does not "first cancel the existing alarm" as the claim states. -/
theorem c2_schedule_does_not_cancel_first :
    countId [PendingNotif.mk 7 "Soonish Reminder" "x" 99999] 7 = 1
      ∧ ((managerSchedule Platform.android 0
            [PendingNotif.mk 7 "Soonish Reminder" "x" 99999]
            "Soonish Reminder" "x" 60 7).2.any MgrEffect.isCancel) = false := by
  constructor
  · rfl
  · rfl

/-- C2 amended: `NotificationManager.schedule` does not itself cancel the
pending alarm for its `id` (its platform-call trace never contains a
cancel); at most one active alarm per `id` nevertheless holds because the
OS pending set is keyed by `id`, so re-registering an `id` replaces the
existing entry — in particular `schedule(id)` immediately followed by
`schedule(id)` leaves exactly one active alarm for `id`, from any starting
pending set. -/
theorem c2_amended_at_most_one_alarm_per_id (pend : List PendingNotif)
    (n1 n2 s1 s2 id : Int) (t1 b1 t2 b2 : String) :
    countId ((managerSchedule Platform.android n2
        (managerSchedule Platform.android n1 pend t1 b1 s1 id).1
        t2 b2 s2 id).1) id = 1
      ∧ ((managerSchedule Platform.android n2 pend t2 b2 s2 id).2.any
          MgrEffect.isCancel) = false := by
  refine ⟨?_, by simp [managerSchedule, MgrEffect.isCancel]⟩
  simpa using countId_osSchedule
    (managerSchedule Platform.android n1 pend t1 b1 s1 id).1
    ⟨id, t2, b2, n2 + s2 * 1000⟩

/-- C4 counterexample: id allocation is neither collision-free nor
monotonic.  Two create calls in the same millisecond (clock reading
`1700000000000` twice) receive equal ids, and across the modulus wrap the
later clock reading `2147483647` receives a *smaller* id than the earlier
reading `2147483646` — not a strictly larger one as the claim states. -/
theorem c4_ids_collide_and_wrap :
    allocId 1700000000000 = allocId 1700000000000
      ∧ ¬ allocId 1700000000000 < allocId 1700000000000
      ∧ (2147483646 : Int) < 2147483647
      ∧ allocId 2147483647 < allocId 2147483646
      ∧ allocId 0 = allocId 2147483647 := by
  refine ⟨rfl, by decide, by decide, by decide, by decide⟩

/-- C4 amended: every allocated id lies in the 32-bit signed range
`[0, 2147483646]` (for the non-negative clock readings `Date.now()`
produces), and ids are strictly increasing only for calls whose clock
readings are strictly increasing within the same 2147483647 ms modulus
window; calls sharing a millisecond collide, and monotonicity fails across
a window boundary. -/
theorem c4_amended_id_range_and_windowed_monotonicity (now n1 n2 : Int) :
    (0 ≤ now → 0 ≤ allocId now ∧ allocId now ≤ 2147483646)
      ∧ (n1 < n2 → n1 / 2147483647 = n2 / 2147483647 →
          allocId n1 < allocId n2) := by
  unfold allocId
  omega

/-- Closed witness for the amended C4 statement at concrete clock
readings. -/
theorem c4_amended_id_range_and_windowed_monotonicity_witness :
    (0 ≤ allocId 1700000000000 ∧ allocId 1700000000000 ≤ 2147483646)
      ∧ allocId 1700000000000 < allocId 1700000000001 :=
  ⟨(c4_amended_id_range_and_windowed_monotonicity 1700000000000 0 1).1 (by decide),
   (c4_amended_id_range_and_windowed_monotonicity 0 1700000000000 1700000000001).2
     (by decide) (by decide)⟩

/-- C5: exactly one delivery path owns any due-crossing, decided solely by
the active platform.  On native (Durable-Schedule) the timer loop never
fires an alert itself — its `webAlert` is always `none` — while `schedule`
registers the alarm with the OS.  On web (Immediate-Display) `schedule`
leaves the OS pending set untouched and registers nothing, while the loop
fires the alert precisely when `remaining` reaches 0 with `notified` still
false, and then marks `notified`. -/
theorem c5_exactly_one_delivery_path (now s id : Int) (r : Reminder)
    (pend : List PendingNotif) (t b : String) :
    (tickReminder Platform.android now r).webAlert = none
      ∧ (tickReminder Platform.ios now r).webAlert = none
      ∧ (managerSchedule Platform.android now pend t b s id).1
          = osSchedule pend ⟨id, t, b, now + s * 1000⟩
      ∧ (managerSchedule Platform.web now pend t b s id).1 = pend
      ∧ ((managerSchedule Platform.web now pend t b s id).2.any
          MgrEffect.isOsSchedule) = false
      ∧ (tickReminder Platform.web now r).webAlert
          = (if remainingOf r.targetTime now = 0 ∧ r.notified = false
             then some r.text else none)
      ∧ ((tickReminder Platform.web now r).reminder).notified
          = (r.notified || (remainingOf r.targetTime now == 0)) := by
  refine ⟨?_, ?_, ?_, ?_, ?_, ?_, ?_⟩
  · unfold tickReminder; split
    · next h => exact absurd h.2.2 (by decide)
    · rfl
  · unfold tickReminder; split
    · next h => exact absurd h.2.2 (by decide)
    · rfl
  · rfl
  · rfl
  · rfl
  · unfold tickReminder
    split
    · next h => simp [h.1, h.2.1]
    · next h =>
        rw [if_neg]
        intro hc
        exact h ⟨hc.1, hc.2, rfl⟩
  · unfold tickReminder
    split
    · next h => simp [h.1, h.2.1]
    · next h =>
        by_cases h0 : remainingOf r.targetTime now = 0
        · by_cases hn : r.notified = false
          · exact absurd ⟨h0, hn, rfl⟩ h
          · simp at hn; simp [hn]
        · simp [h0]

/-- C3 counterexample: at 08:00 on day 0 (clock `28800000` ms) with defer
time 09:00, today's occurrence (`32400000`) has not yet passed, so the
claim demands the shared target be today 09:00; `handleDeferAll`
nevertheless retargets the active reminder to tomorrow 09:00
(`118800000`). -/
theorem c3_defer_always_tomorrow_counterexample :
    specNextOccurrence 28800000 9 0 = 32400000
      ∧ (handleDeferAll Platform.web 28800000 9 0 true
            [Reminder.mk 1 "a" 60 60 28860000 0 false]).store.map Reminder.targetTime
          = [118800000]
      ∧ (118800000 : Int) ≠ 32400000 := by
  refine ⟨by decide, by decide, by decide⟩

theorem deferResult_store_map (p : Platform) (now h m : Int)
    (store : List Reminder) (r : Reminder)
    (hmem : r ∈ store) (hact : 0 < r.remaining) :
    (handleDeferAll p now h m true store).store
      = store.map (deferUpdate (deferTargetTime now h m)
          (ceilDiv (deferTargetTime now h m - now) 1000))
      ∧ (handleDeferAll p now h m true store).nothingToDefer = false := by
  have hmemf : r ∈ store.filter (fun r => decide (0 < r.remaining)) :=
    List.mem_filter.2 ⟨hmem, by simpa using hact⟩
  have hne : (store.filter (fun r => decide (0 < r.remaining))).isEmpty = false := by
    cases hfe : (store.filter (fun r => decide (0 < r.remaining))).isEmpty
    · rfl
    · rw [List.isEmpty_iff] at hfe
      rw [hfe] at hmemf
      exact absurd hmemf (List.not_mem_nil r)
  simp [handleDeferAll, hne]

/-- C3 amended: for a non-empty confirmed selection, `handleDeferAll`
reschedules every selected reminder (those with `remaining > 0`) to the
single shared instant *tomorrow* at `h:m` — unconditionally tomorrow's
occurrence, even when today's occurrence of that wall-clock time has not
yet passed — setting `remaining` and `originalDuration` to the gap and
clearing `notified`. -/
theorem c3_amended_defer_targets_tomorrow (p : Platform) (now h m : Int)
    (store : List Reminder) (i : Nat) (r : Reminder)
    (hr : store[i]? = some r) (hact : 0 < r.remaining) :
    (handleDeferAll p now h m true store).store[i]?
        = some { r with targetTime := deferTargetTime now h m,
                        remaining := ceilDiv (deferTargetTime now h m - now) 1000,
                        notified := false,
                        originalDuration := ceilDiv (deferTargetTime now h m - now) 1000 }
      ∧ (handleDeferAll p now h m true store).nothingToDefer = false := by
  have hmem : r ∈ store := List.getElem?_mem hr
  obtain ⟨hst, hntd⟩ := deferResult_store_map p now h m store r hmem hact
  refine ⟨?_, hntd⟩
  rw [hst, List.getElem?_map, hr]
  simp [deferUpdate, hact]

/-- Closed witness for the amended C3 statement: one active reminder at
08:00 on day 0, deferred to 09:00, lands on tomorrow 09:00. -/
theorem c3_amended_defer_targets_tomorrow_witness :
    (handleDeferAll Platform.web 28800000 9 0 true
        [Reminder.mk 1 "a" 60 60 28860000 0 false]).store[0]?
      = some (Reminder.mk 1 "a" 90000 90000 118800000 0 false) := by
  rw [(c3_amended_defer_targets_tomorrow Platform.web 28800000 9 0
      [Reminder.mk 1 "a" 60 60 28860000 0 false] 0
      (Reminder.mk 1 "a" 60 60 28860000 0 false) rfl (by decide)).1]
  rfl

/-- C8: `handleDeferAll` only touches reminders with `remaining > 0`: a
stored reminder without positive `remaining` is returned unchanged at its
position, and every platform call in the trace that targets an id targets
the id of some reminder with `remaining > 0`. -/
theorem c8_defer_leaves_due_reminders_alone (p : Platform) (now h m : Int)
    (conf : Bool) (store : List Reminder) (i : Nat) (r : Reminder)
    (hr : store[i]? = some r) (hz : ¬ 0 < r.remaining) :
    (handleDeferAll p now h m conf store).store[i]? = some r
      ∧ ∀ e ∈ (handleDeferAll p now h m conf store).effects, ∀ j : Int,
          e.targetId = some j →
          ∃ a, a ∈ store ∧ 0 < a.remaining ∧ j = a.id := by
  unfold handleDeferAll
  split
  · exact ⟨hr, by intro e he; simp at he⟩
  · split
    · exact ⟨hr, by intro e he; simp at he⟩
    · constructor
      · rw [List.getElem?_map, hr]
        simp [deferUpdate, hz]
      · intro e he j hj
        simp only [List.mem_flatMap] at he
        obtain ⟨a, ha, hea⟩ := he
        obtain ⟨hamem, haact⟩ := List.mem_filter.1 ha
        refine ⟨a, hamem, by simpa using haact, ?_⟩
        by_cases hp : p = Platform.web
        · subst hp
          simp [managerCancel, managerSchedule, MgrEffect.targetId] at hea
          rw [hea] at hj
          simp [MgrEffect.targetId] at hj
        · simp [managerCancel, managerSchedule, hp] at hea
          rcases hea with hea | hea <;> rw [hea] at hj <;>
            simp [MgrEffect.targetId] at hj <;> omega

/-- Closed witness for C8: a store holding one active and one due reminder;
the due one (index 1) survives `handleDeferAll` unchanged and no platform
call targets any id but the active reminder's. -/
theorem c8_defer_leaves_due_reminders_alone_witness :
    (handleDeferAll Platform.android 28800000 9 0 true
        [Reminder.mk 1 "a" 60 60 28860000 0 false,
         Reminder.mk 2 "b" 0 0 100 0 true]).store[1]?
        = some (Reminder.mk 2 "b" 0 0 100 0 true)
      ∧ ∀ e ∈ (handleDeferAll Platform.android 28800000 9 0 true
            [Reminder.mk 1 "a" 60 60 28860000 0 false,
             Reminder.mk 2 "b" 0 0 100 0 true]).effects, ∀ j : Int,
          e.targetId = some j →
          ∃ a, a ∈ [Reminder.mk 1 "a" 60 60 28860000 0 false,
                    Reminder.mk 2 "b" 0 0 100 0 true]
            ∧ 0 < a.remaining ∧ j = a.id :=
  c8_defer_leaves_due_reminders_alone Platform.android 28800000 9 0 true
    [Reminder.mk 1 "a" 60 60 28860000 0 false,
     Reminder.mk 2 "b" 0 0 100 0 true] 1
    (Reminder.mk 2 "b" 0 0 100 0 true) rfl (by decide)

/-- C7: the survivor set of the midnight cleanup is precisely the reminders
with `remaining > 0`, each kept unchanged in order (the result is a
sublist); under the code's invariant that `remaining` is never negative, a
stored reminder is removed exactly when `remaining = 0` — its `notified`
flag plays no role. -/
theorem c7_cleanup_survivors_exactly_positive (store : List Reminder)
    (r : Reminder) :
    (r ∈ cleanupExpired store ↔ r ∈ store ∧ 0 < r.remaining)
      ∧ List.Sublist (cleanupExpired store) store
      ∧ ((∀ x ∈ store, 0 ≤ x.remaining) → r ∈ store →
          (r ∉ cleanupExpired store ↔ r.remaining = 0)) := by
  refine ⟨by simp [cleanupExpired, List.mem_filter], List.filter_sublist store, ?_⟩
  intro hall hmem
  have hr0 := hall r hmem
  constructor
  · intro hnot
    by_contra hne
    exact hnot (List.mem_filter.2 ⟨hmem, by simp; omega⟩)
  · intro h0 hin
    have := (List.mem_filter.1 hin).2
    simp at this
    omega

/-- Closed witness for C7 on a mixed store: the pending reminder survives
untouched, the due one (with `notified` erroneously false even) is
removed. -/
theorem c7_cleanup_survivors_exactly_positive_witness :
    cleanupExpired [Reminder.mk 1 "a" 60 5 5000 0 false,
        Reminder.mk 2 "b" 60 0 100 0 true]
      = [Reminder.mk 1 "a" 60 5 5000 0 false]
    ∧ (Reminder.mk 1 "a" 60 5 5000 0 false
        ∈ cleanupExpired [Reminder.mk 1 "a" 60 5 5000 0 false,
            Reminder.mk 2 "b" 60 0 100 0 true]
      ↔ Reminder.mk 1 "a" 60 5 5000 0 false
          ∈ [Reminder.mk 1 "a" 60 5 5000 0 false,
             Reminder.mk 2 "b" 60 0 100 0 true]
        ∧ (0 : Int) < 5)
    ∧ (Reminder.mk 2 "b" 60 0 100 0 true
        ∉ cleanupExpired [Reminder.mk 1 "a" 60 5 5000 0 false,
            Reminder.mk 2 "b" 60 0 100 0 true]
      ↔ (0 : Int) = 0) :=
  ⟨rfl,
   (c7_cleanup_survivors_exactly_positive
      [Reminder.mk 1 "a" 60 5 5000 0 false, Reminder.mk 2 "b" 60 0 100 0 true]
      (Reminder.mk 1 "a" 60 5 5000 0 false)).1,
   (c7_cleanup_survivors_exactly_positive
      [Reminder.mk 1 "a" 60 5 5000 0 false, Reminder.mk 2 "b" 60 0 100 0 true]
      (Reminder.mk 2 "b" 60 0 100 0 true)).2.2 (by decide) (by decide)⟩

/-- C10: snoozing replaces the countdown: the reminder whose id matches ends
up with `targetTime = now + minutes*60*1000` and `remaining = minutes*60`
computed from the moment of the call alone — whatever time was previously
remaining (even if the reminder was not yet due) is discarded, never added
to — and `notified` is cleared; reminders with other ids are untouched. -/
theorem c10_snooze_replaces_countdown (p : Platform) (now id minutes : Int)
    (store : List Reminder) (i : Nat) (r : Reminder)
    (hr : store[i]? = some r) :
    (r.id = id →
        (handleSnooze p now id minutes store).1[i]?
          = some { r with targetTime := now + minutes * 60 * 1000,
                          remaining := minutes * 60, notified := false })
      ∧ (r.id ≠ id → (handleSnooze p now id minutes store).1[i]? = some r) := by
  constructor
  · intro hid
    show (store.map (snoozeUpdate now minutes id))[i]? = _
    rw [List.getElem?_map, hr]
    simp [snoozeUpdate, hid]
  · intro hid
    show (store.map (snoozeUpdate now minutes id))[i]? = _
    rw [List.getElem?_map, hr]
    simp [snoozeUpdate, hid]

/-- Closed witness for C10: a reminder with 400 s still remaining, snoozed
for 10 minutes at `now = 1000000`, ends at exactly `now + 600000` ms /
600 s — the prior 400 s is discarded, not added. -/
theorem c10_snooze_replaces_countdown_witness :
    (handleSnooze Platform.android 1000000 7 10
        [Reminder.mk 7 "call mom" 900 400 1400000 0 false]).1[0]?
      = some (Reminder.mk 7 "call mom" 900 600 1600000 0 false) := by
  rw [(c10_snooze_replaces_countdown Platform.android 1000000 7 10
      [Reminder.mk 7 "call mom" 900 400 1400000 0 false] 0
      (Reminder.mk 7 "call mom" 900 400 1400000 0 false) rfl).1 rfl]
  rfl

/-- C6: if the alarm-scheduling call fails after the store insert, the new
reminder nevertheless remains in the store (at its inserted position, with
nothing else removed); the failure surfaces as an alert and does not undo
the insert. -/
theorem c6_schedule_failure_keeps_reminder (p : Platform)
    (now dur : Int) (input : String) (store : List Reminder)
    (h : isBlank input = false) :
    (handleAddReminder p Permission.granted true now dur input store).store
        = mkNewReminder now dur input :: store
      ∧ mkNewReminder now dur input
          ∈ (handleAddReminder p Permission.granted true now dur input store).store
      ∧ (handleAddReminder p Permission.granted true now dur input store).errorAlert
          = some "Failed to add reminder" := by
  refine ⟨?_, ?_, ?_⟩ <;> simp [handleAddReminder, h]

/-- Closed witness for C6 at a concrete failing create call. -/
theorem c6_schedule_failure_keeps_reminder_witness :
    (handleAddReminder Platform.android Permission.granted true 1000 30
          "Buy milk" []).store
        = mkNewReminder 1000 30 "Buy milk" :: []
      ∧ mkNewReminder 1000 30 "Buy milk"
          ∈ (handleAddReminder Platform.android Permission.granted true 1000 30
              "Buy milk" []).store
      ∧ (handleAddReminder Platform.android Permission.granted true 1000 30
          "Buy milk" []).errorAlert = some "Failed to add reminder" :=
  c6_schedule_failure_keeps_reminder Platform.android 1000 30 "Buy milk" []
    (by decide)

/-- C9 counterexample: for the input `"[5]"` — a numeric prefix whose
remainder is empty — the stored text is the default `"Reminder"`, not the
(empty) remainder of the input, so the rest of the text is *not* stored
unchanged as the claim states. -/
theorem c9_prefix_empty_rest_counterexample :
    customTimeMatch "[5]" = some (5, "")
      ∧ (handleAddReminder Platform.web Permission.granted false 0 30 "[5]"
            []).store.map Reminder.text = ["Reminder"]
      ∧ ("Reminder" : String) ≠ "" := by
  refine ⟨rfl, rfl, by decide⟩

/-- C9 amended: a `[N]` prefix with `N > 0` overrides the selected duration
with `N` minutes and stores the captured remainder of the text, *except*
that an empty remainder is replaced by the default text `"Reminder"`; a
prefix with `N = 0` is ignored (selected duration and raw text are used),
as they are for inputs without a prefix. -/
theorem c9_amended_prefix_override (p : Platform) (sf : Bool)
    (now dur : Int) (input : String) (store : List Reminder)
    (n : Nat) (rest : String) (hb : isBlank input = false) :
    (customTimeMatch input = some (n, rest) → 0 < n →
        (handleAddReminder p Permission.granted sf now dur input store).store[0]?
            = some (mkNewReminder now dur input)
          ∧ (mkNewReminder now dur input).originalDuration = (n : Int) * 60
          ∧ (mkNewReminder now dur input).text
              = (if rest = "" then "Reminder" else rest))
      ∧ (customTimeMatch input = some (n, rest) → n = 0 →
          (mkNewReminder now dur input).originalDuration = dur * 60
            ∧ (mkNewReminder now dur input).text = input)
      ∧ (customTimeMatch input = none →
          (mkNewReminder now dur input).originalDuration = dur * 60
            ∧ (mkNewReminder now dur input).text = input) := by
  refine ⟨?_, ?_, ?_⟩
  · intro hm hn
    refine ⟨?_, ?_, ?_⟩
    · cases sf <;> simp [handleAddReminder, hb]
    · simp [mkNewReminder, mkDurationText, hm, hn]
    · simp [mkNewReminder, mkDurationText, hm, hn]
  · intro hm hn
    subst hn
    constructor <;> simp [mkNewReminder, mkDurationText, hm]
  · intro hm
    constructor <;> simp [mkNewReminder, mkDurationText, hm]

/-- Closed witness for the amended C9 at the input `"[5] milk"`: duration
becomes 5 minutes and the stored text is the remainder `"milk"`. -/
theorem c9_amended_prefix_override_witness :
    (handleAddReminder Platform.web Permission.granted false 0 30 "[5] milk"
          []).store[0]? = some (mkNewReminder 0 30 "[5] milk")
      ∧ (mkNewReminder 0 30 "[5] milk").originalDuration = ((5 : Nat) : Int) * 60
      ∧ (mkNewReminder 0 30 "[5] milk").text
          = (if ("milk" : String) = "" then "Reminder" else "milk") :=
  (c9_amended_prefix_override Platform.web false 0 30 "[5] milk" [] 5 "milk"
    (by decide)).1 rfl (by decide)

end Soonish
